import Mathlib

/-!
Verification of the MC Store data-access layer.

This file shallowly embeds the order-placement workflow, the cart upsert
logic, the product normaliser, the payment (cash-on-delivery) validation and
the shipping-rate resolver of the MC-Store repository, and proves the
specified properties about them.

Conventions of the embedding:
* JavaScript numbers that the code treats as integers (prices, stocks,
  quantities, totals) are modelled as `Int`; absent (`undefined`/`null`)
  numeric fields are `Option Int`.  The JS coercion `Number(x) || 0` maps an
  absent value to `0` and is the identity on integers, so it is modelled by
  `Option.getD 0`.
* JS string truthiness (`null`, `undefined` and `""` are falsy) is modelled
  by `jsStr`/`jsOrStr` below.
* Asynchronous remote calls are modelled as state transitions on an explicit
  `World`; a call that throws is modelled by `Except.error`.  Which remote
  calls fail is injected through a `Faults` record, since the network is the
  environment, not the program.
* The wall clock (`new Date()`, `Date.now()`) and the random generator
  (`Math.random()`) are passed in as explicit parameters (`year`, `now`, and
  a rational `r` with `0 ≤ r < 1`).
-/

namespace MCStore

/-! ## JavaScript value helpers -/

/-- JS string truthiness projection: `jsStr o = some s` exactly when the
underlying JS value is a truthy string; an absent/null value and the empty
string (falsy in JS) become `none`. -/
def jsStr : Option String → Option String
  | none => none
  | some s => if s.isEmpty then none else some s

/-- JS `a || b` on string-valued expressions: the left value when truthy,
otherwise the right value. -/
def jsOrStr (a b : Option String) : Option String :=
  match jsStr a with
  | some s => some s
  | none => b

/-- JS `a || b` on integer-valued expressions (`0` is falsy). -/
def jsOrInt (a : Option Int) (b : Int) : Int :=
  match a with
  | none => b
  | some n => if n = 0 then b else n

/-! ## Product records and the normaliser (`src/db.js` lines 49-63,
`src/unnamed/part_000` lines 40-54) -/


/-- A stored product record: the fields that `normalise`, `addToCart` and the
stock-decrement loop read or write.  `display_price`/`original_price` are
absent on raw rows and set by `normalise`. -/
structure ProductRec where
  id : Nat
  name : Option String
  title : Option String
  image_url : Option String
  images : Option (List String)
  image : Option String
  price : Option Int
  promo_price : Option Int
  stock : Option Int
  display_price : Option Int
  original_price : Option Int
  deriving DecidableEq

/-- `Array.isArray(p.images) && p.images.length > 0 ? p.images[0] : null`. -/
def imagesHead (p : ProductRec) : Option String :=
  match p.images with
  | some (x :: _) => some x
  | _ => none

/-- `p.name || p.title || 'Unnamed Product'` (the final `getD` is never
reached: the chain always ends in a truthy string). -/
def norName (p : ProductRec) : String :=
  (jsOrStr p.name (jsOrStr p.title (some "Unnamed Product"))).getD "Unnamed Product"

/-- `p.image_url || (images nonempty ? images[0] : null) || p.image || null`. -/
def norImage (p : ProductRec) : Option String :=
  jsOrStr p.image_url (jsOrStr (imagesHead p) (jsOrStr p.image none))

/-- `normalise` from `src/db.js` lines 49-63 (identical in
`src/unnamed/part_000` lines 40-54) on a non-null record:
`price = Number(p.price) || 0`, `promo = p.promo_price ? Number(p.promo_price) : 0`
(both the identity `Option.getD 0` on integer-modelled fields),
`hasPromo = promo > 0 && promo < price`, and the result is the spread `...p`
with `name`, `image_url`, `display_price`, `original_price` overwritten. -/
def normaliseRec (p : ProductRec) : ProductRec :=
  let price : Int := (p.price).getD 0
  let promo : Int := (p.promo_price).getD 0
  { p with
    name := some (norName p)
    image_url := norImage p
    display_price := some (if 0 < promo ∧ promo < price then promo else price)
    original_price := if 0 < promo ∧ promo < price then some price else none }

/-- `normalise` including the null guard `if (!p) return p`. -/
def normalise : Option ProductRec → Option ProductRec
  | none => none
  | some p => some (normaliseRec p)

/-! ## Cart rows and `addToCart` (`src/unnamed/part_000` lines 82-105) -/

/-- A row of the remote `cart` table. -/
structure CartRow where
  uid : String
  product_id : Nat
  name : String
  image_url : String
  price : Int
  quantity : Int
  deriving DecidableEq

/-- The result object of `addToCart`:
`{action: 'updated', quantity}` or `{action: 'added', quantity}`. -/
inductive AddToCartResult where
  | added (quantity : Int)
  | updated (quantity : Int)
  deriving DecidableEq

/-- The PostgREST filter `cart?uid=eq.U&product_id=eq.P`. -/
def cartMatches (uid : String) (pid : Nat) (r : CartRow) : Bool :=
  decide (r.uid = uid) && decide (r.product_id = pid)

/-- The row POSTed by `addToCart` when no row exists yet
(`src/unnamed/part_000` lines 92-103):
`name = product.name || product.title || ''`,
`image_url = product.image_url || (Array.isArray(product.images) && product.images[0]) || ''`,
`price = product.display_price || product.promo_price || product.price`
(an absent final `price` is modelled as `0`). -/
def mkCartRow (uid : String) (product : ProductRec) (quantity : Int) : CartRow :=
  { uid := uid
    product_id := product.id
    name := (jsOrStr product.name (jsOrStr product.title (some ""))).getD ""
    image_url := (jsOrStr product.image_url (jsOrStr (imagesHead product) (some ""))).getD ""
    price := jsOrInt product.display_price
      (jsOrInt product.promo_price ((product.price).getD 0))
    quantity := quantity }

/-- `actions.addToCart` from `src/unnamed/part_000` lines 82-105: read the
existing rows for `(uid, product.id)`; when nonempty, PATCH every matching row
to `existing[0].quantity + quantity` and report `updated`; else POST a new
row and report `added`.  The remote table is the explicit `cart` list: the
filter `uid=eq.U&product_id=eq.P` is `List.filter`, PATCH maps over the
matching rows, POST appends. -/
def addToCart (uid : String) (product : ProductRec) (quantity : Int)
    (cart : List CartRow) : List CartRow × AddToCartResult :=
  match cart.filter (cartMatches uid product.id) with
  | e0 :: _ =>
    let newQty := e0.quantity + quantity
    (cart.map (fun r =>
        if cartMatches uid product.id r then { r with quantity := newQty } else r),
     .updated newQty)
  | [] =>
    (cart ++ [mkCartRow uid product quantity], .added quantity)

/-! ## Order placement (`src/unnamed/part_000` lines 193-241 and
`src/db.js` lines 397-447) -/

/-- One entry of `orderData.items`: the fields the stock-decrement loop reads
(`item.product_id || item.id` and `item.quantity || 1`). -/
structure OrderItem where
  product_id : Option Nat
  id : Nat
  quantity : Int
  deriving DecidableEq

/-- `item.product_id || item.id` (an absent field and `0` are falsy). -/
def itemPid (i : OrderItem) : Nat :=
  match i.product_id with
  | none => i.id
  | some p => if p = 0 then i.id else p

/-- `item.quantity || 1` (`quantity` is kept as a present integer, so exactly
`0` falls back to `1`). -/
def itemQty (i : OrderItem) : Int :=
  if i.quantity = 0 then 1 else i.quantity

/-- The order payload passed to `placeOrder`.  The `created_at`/`updated_at`
clock strings of the inserted row are presentation-only and omitted. -/
structure OrderData where
  uid : String
  customerName : String
  customerEmail : String
  customerPhone : String
  items : List OrderItem
  deliveryStreet : String
  deliveryCity : String
  deliveryState : String
  deliveryLandmark : String
  shipbubbleCourierId : String
  shipbubbleCourierName : String
  shipbubbleServiceCode : String
  paymentMethod : String
  paymentRef : String
  subtotal : Int
  deliveryFee : Int
  discount : Int
  total : Int
  deriving DecidableEq

/-- A row of the remote `orders` table.  `items` is the serialized snapshot
(`JSON.stringify`), kept structured here; the three shipbubble columns are
only written by the `db.js` variant and are absent (`none`) on rows inserted
by the server action. -/
structure OrderRow where
  order_number : String
  uid : String
  customer_name : String
  customer_email : String
  customer_phone : String
  items : List OrderItem
  delivery_street : String
  delivery_city : String
  delivery_state : String
  delivery_landmark : String
  shipbubble_courier_id : Option String
  shipbubble_courier_name : Option String
  shipbubble_service_code : Option String
  payment_method : String
  payment_status : String
  payment_ref : String
  status : String
  subtotal : Int
  delivery_fee : Int
  discount : Int
  total : Int
  deriving DecidableEq

/-- `Math.floor(Math.random() * 900000) + 100000`; the draw `Math.random()`
is the explicit parameter `r ∈ [0, 1)`. -/
def orderRandNum (r : ℚ) : ℤ := ⌊r * 900000⌋ + 100000

/-- The generated order number `MC-<year>-<num>`. -/
def orderNumberStr (year : Nat) (r : ℚ) : String :=
  "MC-" ++ toString year ++ "-" ++ toString (orderRandNum r)

/-- The order record inserted by `actions.placeOrder`
(`src/unnamed/part_000` lines 196-221).  `deliveryLandmark || ''` and
`paymentRef || ''` are identities on present strings;
`paymentMethod || 'paystack'` falls back exactly on the empty string;
`payment_status = orderData.paymentRef ? 'paid' : 'pending'`. -/
def mkOrderRow (od : OrderData) (year : Nat) (r : ℚ) : OrderRow :=
  { order_number := orderNumberStr year r
    uid := od.uid
    customer_name := od.customerName
    customer_email := od.customerEmail
    customer_phone := od.customerPhone
    items := od.items
    delivery_street := od.deliveryStreet
    delivery_city := od.deliveryCity
    delivery_state := od.deliveryState
    delivery_landmark := od.deliveryLandmark
    shipbubble_courier_id := none
    shipbubble_courier_name := none
    shipbubble_service_code := none
    payment_method := if od.paymentMethod.isEmpty then "paystack" else od.paymentMethod
    payment_status := if od.paymentRef.isEmpty then "pending" else "paid"
    payment_ref := od.paymentRef
    status := "processing"
    subtotal := od.subtotal
    delivery_fee := od.deliveryFee
    discount := od.discount
    total := od.total }

/-- The order record inserted by `db_placeOrder` (`src/db.js` lines 400-428):
as `mkOrderRow` but every customer/delivery string defaults to `''` (an
identity on present strings) and the three shipbubble columns are copied. -/
def mkOrderRowFast (od : OrderData) (year : Nat) (r : ℚ) : OrderRow :=
  { mkOrderRow od year r with
    shipbubble_courier_id := some od.shipbubbleCourierId
    shipbubble_courier_name := some od.shipbubbleCourierName
    shipbubble_service_code := some od.shipbubbleServiceCode }

/-- A `products` table row: the id and stock columns, the only ones the
stock-decrement loop touches (`stock` may be null, read as `stock || 0`). -/
structure ProductRow where
  id : Nat
  stock : Option Int
  deriving DecidableEq

/-- The remote backend state that `placeOrder` reads and writes. -/
structure World where
  orders : List OrderRow
  cart : List CartRow
  products : List ProductRow
  deriving DecidableEq

/-- Fault injection for the remote calls of one `placeOrder` run: whether the
order insert throws, whether the cart DELETE throws, and whether the stock
SELECT (resp. PATCH) of the i-th item throws.  The network is the
environment, so which calls fail is a parameter of the run. -/
structure Faults where
  insertFails : Bool
  clearFails : Bool
  stockReadFails : List Bool
  stockWriteFails : List Bool
  deriving DecidableEq

/-- The fault-free environment: every remote call succeeds. -/
def noFaults : Faults :=
  { insertFails := false, clearFails := false
    stockReadFails := [], stockWriteFails := [] }

/-- One iteration of the stock-decrement loop (`src/unnamed/part_000` lines
227-238, identical logic in `src/db.js` lines 432-444): inside `try`, SELECT
the rows with the item's product id; when nonempty, PATCH every such row to
`Math.max(0, (rows[0].stock || 0) - (item.quantity || 1))`; a failure of the
SELECT or the PATCH is caught and ignored, leaving the table unchanged. -/
def stockStep (readFails writeFails : Bool) (item : OrderItem)
    (products : List ProductRow) : List ProductRow :=
  if readFails then products
  else
    let pid := itemPid item
    match products.filter (fun p => decide (p.id = pid)) with
    | [] => products
    | p0 :: _ =>
      let newStock := max 0 ((p0.stock).getD 0 - itemQty item)
      if writeFails then products
      else products.map (fun p =>
        if p.id = pid then { p with stock := some newStock } else p)

/-- The `for (const item of (orderData.items || []))` loop, threading the
item index for fault lookup. -/
def stockLoop (f : Faults) (items : List OrderItem) (i : Nat)
    (products : List ProductRow) : List ProductRow :=
  match items with
  | [] => products
  | item :: rest =>
      stockLoop f rest (i + 1)
        (stockStep (f.stockReadFails.getD i false) (f.stockWriteFails.getD i false)
          item products)

/-- `actions.placeOrder` from `src/unnamed/part_000` lines 193-241:
1. insert the order row (`sb('orders', POST)` with `return=representation`);
   a failure propagates out of `placeOrder`;
2. `await sb('cart?uid=eq.<uid>', DELETE)` — not wrapped in any try/catch,
   so a failure propagates out of `placeOrder`;
3. the per-item stock loop, each iteration in its own try/catch;
4. `return result[0]`, the inserted row. -/
def placeOrderActions (f : Faults) (od : OrderData) (year : Nat) (r : ℚ)
    (w : World) : Except String (OrderRow × World) :=
  if f.insertFails then .error "order insert failed"
  else
    let row := mkOrderRow od year r
    let w1 : World := { w with orders := w.orders ++ [row] }
    if f.clearFails then .error "cart clear failed"
    else
      let w2 : World := { w1 with cart := w1.cart.filter (fun c => c.uid != od.uid) }
      let w3 : World := { w2 with products := stockLoop f od.items 0 w2.products }
      .ok (row, w3)

/-- `db_placeOrder` from `src/db.js` lines 397-447 (the upsert variant): the
insert is awaited and a failure propagates; `db_clearCart` swallows its own
failure (`try { ... } catch(_) {}`) and is issued fire-and-forget; each item's
stock adjustment runs in its own try/catch.  In the single-threaded model the
fire-and-forget calls complete before the final state is observed. -/
def db_placeOrder (f : Faults) (od : OrderData) (year : Nat) (r : ℚ)
    (w : World) : Except String (OrderRow × World) :=
  if f.insertFails then .error "order insert failed"
  else
    let row := mkOrderRowFast od year r
    let w1 : World := { w with orders := w.orders ++ [row] }
    let w2 : World :=
      if f.clearFails then w1
      else { w1 with cart := w1.cart.filter (fun c => c.uid != od.uid) }
    let w3 : World := { w2 with products := stockLoop f od.items 0 w2.products }
    .ok (row, w3)

/-- `Except` success test. -/
def isOkE {α : Type} : Except String α → Bool
  | .ok _ => true
  | .error _ => false

/-! ## Cash on delivery (`src/payment.js`) -/

/-- `COD_MIN` from `src/payment.js` line 20. -/
def COD_MIN : Int := 7000

/-- `COD_MAX` from `src/payment.js` line 21. -/
def COD_MAX : Int := 50000

/-- Result shape of `validateCOD`: `{valid: true}` or
`{valid: false, reason: "..."}`. -/
structure CODCheck where
  valid : Bool
  reason : Option String
  deriving DecidableEq

/-- Comma grouping of a reversed digit list, three digits at a time
(the integer behaviour of JS `Number.prototype.toLocaleString`). -/
def groupRev : List Char → List Char
  | a :: b :: c :: d :: rest => a :: b :: c :: ',' :: groupRev (d :: rest)
  | l => l
termination_by l => l.length
decreasing_by simp

/-- JS `toLocaleString` on an integer: decimal digits in groups of three
separated by commas, with a leading minus sign when negative. -/
def fmtAmount (n : Int) : String :=
  let digits := (Nat.toDigits 10 n.natAbs).reverse
  (if n < 0 then "-" else "") ++ String.mk ((groupRev digits).reverse)

/-- `validateCOD` from `src/payment.js` lines 50-64. -/
def validateCOD (totalAmount : Int) : CODCheck :=
  if totalAmount < COD_MIN then
    { valid := false
      reason := some ("Cash on Delivery is only available for orders of ₦"
        ++ fmtAmount COD_MIN ++ " and above. Your order total is ₦"
        ++ fmtAmount totalAmount ++ ".") }
  else if totalAmount > COD_MAX then
    { valid := false
      reason := some ("Cash on Delivery is only available for orders up to ₦"
        ++ fmtAmount COD_MAX ++ ". Please pay online for this order.") }
  else
    { valid := true, reason := none }

/-- The object returned by a successful `processCOD` call. -/
structure CODPayment where
  method : String
  status : String
  reference : String
  amount : Int
  deriving DecidableEq

/-- `processCOD` from `src/payment.js` lines 214-224: validate, throw
`Error(check.reason)` when invalid, else return the COD payment object.
`Date.now()` is the explicit parameter `now`. -/
def processCOD (totalAmount : Int) (now : Nat) : Except String CODPayment :=
  let check := validateCOD totalAmount
  if check.valid = false then .error (check.reason.getD "")
  else .ok { method := "cash_on_delivery", status := "pending",
             reference := "COD-" ++ toString now, amount := totalAmount }

/-! ## Shipping rates (`src/api/shipping.js` and `src/shipping.js`) -/

/-- Lower-casing of a string, character by character
(JS `String.prototype.toLowerCase` on the ASCII state names involved). -/
def lowerStr (s : String) : String :=
  String.mk (s.toList.map Char.toLower)

/-- Whether `pre` is an initial segment of `l`. -/
def listHasPre : List Char → List Char → Bool
  | [], _ => true
  | _ :: _, [] => false
  | a :: xs, b :: ys => a = b && listHasPre xs ys

/-- Whether `needle` occurs contiguously inside the second list. -/
def listHasInfix (needle : List Char) : List Char → Bool
  | [] => needle.isEmpty
  | c :: rest => listHasPre needle (c :: rest) || listHasInfix needle rest

/-- JS `s.includes(sub)`. -/
def strIncludes (s sub : String) : Bool :=
  listHasInfix sub.toList s.toList

/-- One rate entry as returned to the caller.  The static fallback entries
carry no `service_code` field. -/
structure Rate where
  courier_id : String
  courier_name : String
  service_code : Option String
  delivery_fee : Int
  eta : String
  logo : String
  deriving DecidableEq

/-- `flatRates` from `src/api/shipping.js` lines 35-67: a static table keyed
by case-insensitive substring match on the recipient state, six geographic
buckets plus the rest-of-country default, two options each. -/
def flatRates (state : String) : List Rate :=
  let s := lowerStr state
  if strIncludes s "oyo" then
    [ { courier_id := "local-express", courier_name := "Express Delivery",
        service_code := none, delivery_fee := 1500, eta := "Same day / Next day", logo := "" },
      { courier_id := "local-standard", courier_name := "Standard Delivery",
        service_code := none, delivery_fee := 800, eta := "1-2 business days", logo := "" } ]
  else if strIncludes s "lagos" then
    [ { courier_id := "lagos-express", courier_name := "Express Delivery",
        service_code := none, delivery_fee := 3500, eta := "1-2 business days", logo := "" },
      { courier_id := "lagos-standard", courier_name := "Standard Delivery",
        service_code := none, delivery_fee := 2000, eta := "2-3 business days", logo := "" } ]
  else if strIncludes s "abuja" || strIncludes s "fct" then
    [ { courier_id := "abuja-express", courier_name := "Express Delivery",
        service_code := none, delivery_fee := 4000, eta := "2-3 business days", logo := "" },
      { courier_id := "abuja-standard", courier_name := "Standard Delivery",
        service_code := none, delivery_fee := 2500, eta := "3-5 business days", logo := "" } ]
  else if ["osun", "ondo", "ekiti", "ogun", "kwara", "kogi", "edo"].any
      (fun x => strIncludes s x) then
    [ { courier_id := "sw-express", courier_name := "Express Delivery",
        service_code := none, delivery_fee := 2500, eta := "1-3 business days", logo := "" },
      { courier_id := "sw-standard", courier_name := "Standard Delivery",
        service_code := none, delivery_fee := 1500, eta := "2-4 business days", logo := "" } ]
  else if ["rivers", "delta", "anambra", "imo", "enugu", "abia", "akwa"].any
      (fun x => strIncludes s x) then
    [ { courier_id := "ss-express", courier_name := "Express Delivery",
        service_code := none, delivery_fee := 4500, eta := "2-4 business days", logo := "" },
      { courier_id := "ss-standard", courier_name := "Standard Delivery",
        service_code := none, delivery_fee := 2800, eta := "3-5 business days", logo := "" } ]
  else
    [ { courier_id := "ng-express", courier_name := "Express Delivery",
        service_code := none, delivery_fee := 5500, eta := "3-5 business days", logo := "" },
      { courier_id := "ng-standard", courier_name := "Standard Delivery",
        service_code := none, delivery_fee := 3500, eta := "5-7 business days", logo := "" } ]

/-- A raw Shipbubble rate entry; the handler defensively reads several
alternate field names, so each is optional. -/
structure RawRate where
  courier_id : Option String
  id : Option String
  courier_name : Option String
  name : Option String
  service_code : Option String
  code : Option String
  total : Option Int
  fee : Option Int
  amount : Option Int
  estimated_days : Option Int
  eta : Option String
  courier_logo : Option String
  logo : Option String
  deriving DecidableEq

/-- The normalisation of one raw entry (`src/api/shipping.js` lines 118-125). -/
def convRate (r : RawRate) : Rate :=
  { courier_id := (jsOrStr r.courier_id (jsOrStr r.id (some ""))).getD ""
    courier_name := (jsOrStr r.courier_name (jsOrStr r.name (some "Courier"))).getD ""
    service_code := some ((jsOrStr r.service_code (jsOrStr r.code (some ""))).getD "")
    delivery_fee := jsOrInt r.total (jsOrInt r.fee (jsOrInt r.amount 0))
    eta := match r.estimated_days with
      | some d =>
        if d = 0 then (jsOrStr r.eta (some "2-5 days")).getD ""
        else toString d ++ " business day(s)"
      | none => (jsOrStr r.eta (some "2-5 days")).getD ""
    logo := (jsOrStr r.courier_logo (jsOrStr r.logo (some ""))).getD "" }

/-- `data.data || data.rates || []` on the parsed JSON body: a present array
(empty or not) is truthy in JS and gets selected. -/
def bodyEntries (dataField ratesField : Option (List RawRate)) : List RawRate :=
  match dataField with
  | some l => l
  | none =>
    match ratesField with
    | some l => l
    | none => []

/-- The outcome of the remote `shipbubble('/shipping/fetch-rates', ...)` call:
it throws, or it responds with an HTTP status (`ok`) and a parsed JSON body
whose `data` and `rates` keys may each be an array.  The network is the
environment, so the outcome is a parameter. -/
inductive ShipOutcome where
  | throws (msg : String)
  | respond (ok : Bool) (dataField : Option (List RawRate))
      (ratesField : Option (List RawRate))
  deriving DecidableEq

/-- The response of the `getRates` branch. -/
structure RatesResult where
  rates : List Rate
  source : String
  deriving DecidableEq

/-- The `getRates` branch of the handler in `src/api/shipping.js` lines
82-128 together with its outer catch (lines 183-192):
`rawRates = ok ? (data.data || data.rates || []) : []` (a present empty array
is truthy in JS and is selected); when `rawRates` is empty the static
`flatRates` table is returned with `source: 'fallback'`; otherwise the mapped
rates with `source: 'shipbubble'`; if anything throws, the outer catch again
answers `flatRates` with `source: 'fallback'`. -/
def getRatesHandler (state : String) (outcome : ShipOutcome) : RatesResult :=
  match outcome with
  | .throws _ => { rates := flatRates state, source := "fallback" }
  | .respond ok dataField ratesField =>
    let rawRates : List RawRate := if ok then bodyEntries dataField ratesField else []
    if rawRates.isEmpty then { rates := flatRates state, source := "fallback" }
    else { rates := rawRates.map convRate, source := "shipbubble" }

/-- Stable insertion of a rate into a fee-sorted list: inserted after every
entry with a strictly smaller or equal fee, as a stable JS
`Array.prototype.sort` with comparator `a.delivery_fee - b.delivery_fee`
would place it. -/
def insertByFee (r : Rate) : List Rate → List Rate
  | [] => [r]
  | x :: xs => if r.delivery_fee < x.delivery_fee then r :: x :: xs
               else x :: insertByFee r xs

/-- Stable sort of rates by ascending `delivery_fee`
(`rates.sort((a, b) => a.delivery_fee - b.delivery_fee)`). -/
def sortByFee : List Rate → List Rate
  | [] => []
  | x :: xs => insertByFee x (sortByFee xs)

/-- `getCheapestRate` from `src/shipping.js` lines 111-115, as a function of
the rate list the underlying `getRates` call produced:
`if (!rates || rates.length === 0) return null;` then the head of the list
sorted by ascending fee. -/
def getCheapestRate (rates : List Rate) : Option Rate :=
  if rates.isEmpty then none
  else (sortByFee rates).head?

/-! ## Concrete sample data used by witnesses and counterexamples -/

/-- A sample product record. -/
def exProduct : ProductRec :=
  { id := 7, name := some "Rice 5kg", title := none, image_url := some "rice.png",
    images := none, image := none, price := some 9000, promo_price := none,
    stock := some 12, display_price := none, original_price := none }

/-- A product whose promo price equals its price (promo not active). -/
def promoEqRec : ProductRec :=
  { id := 1, name := some "Widget", title := none, image_url := none,
    images := none, image := none, price := some 5, promo_price := some 5,
    stock := none, display_price := none, original_price := none }

/-- A product with an active promo (0 < promo < price). -/
def promoActiveRec : ProductRec :=
  { id := 2, name := some "Gadget", title := none, image_url := none,
    images := none, image := none, price := some 10, promo_price := some 4,
    stock := none, display_price := none, original_price := none }

/-- A sample order item: product 1, quantity 3. -/
def exItem : OrderItem := { product_id := some 1, id := 1, quantity := 3 }

/-- An order item with quantity 0 (falsy in JS, so `quantity || 1` orders one
unit). -/
def zeroQtyItem : OrderItem := { product_id := some 1, id := 1, quantity := 0 }

/-- A sample order payload over the given items. -/
def exOrderData (items : List OrderItem) : OrderData :=
  { uid := "u1", customerName := "Ada", customerEmail := "ada@example.com",
    customerPhone := "0800", items := items, deliveryStreet := "1 Main St",
    deliveryCity := "Ibadan", deliveryState := "Oyo", deliveryLandmark := "",
    shipbubbleCourierId := "", shipbubbleCourierName := "",
    shipbubbleServiceCode := "", paymentMethod := "paystack",
    paymentRef := "PS-1", subtotal := 9000, deliveryFee := 800,
    discount := 0, total := 9800 }

/-- A world with a single product (id 1, stock 5) and an empty cart. -/
def exWorld : World :=
  { orders := [], cart := [], products := [{ id := 1, stock := some 5 }] }

/-- Faults where only the cart-clearing DELETE throws. -/
def clearOnlyFault : Faults :=
  { insertFails := false, clearFails := true
    stockReadFails := [], stockWriteFails := [] }

/-- The world after placing an order of 3 units of product 1 against
`exWorld` (stock 5 drops to 2). -/
def exWfinal : World :=
  { orders := [mkOrderRow (exOrderData [exItem]) 2025 0], cart := [],
    products := [{ id := 1, stock := some 2 }] }

/-- Two sample rates with fees 5 and 3. -/
def exRateA : Rate :=
  { courier_id := "a", courier_name := "A", service_code := none,
    delivery_fee := 5, eta := "1 day", logo := "" }

/-- See `exRateA`. -/
def exRateB : Rate :=
  { courier_id := "b", courier_name := "B", service_code := none,
    delivery_fee := 3, eta := "2 days", logo := "" }

/-! # Theorems -/

/-! ## Generic helper lemmas -/

/-- A concatenation with a nonempty left part is nonempty. -/
theorem append_len_pos (s t : String) (h : 0 < s.length) : 0 < (s ++ t).length := by
  rw [String.length_append]; omega

/-! ## C6: cash-on-delivery boundary -/

/-- C6: `validateCOD` accepts exactly the totals in the closed interval
[7000, 50000]: 6999 is invalid, 7000 and 50000 are valid, 50001 is invalid,
and every invalid result carries a nonempty human-readable reason string. -/
theorem validateCOD_boundary :
    (validateCOD 6999).valid = false ∧
    (validateCOD 7000).valid = true ∧
    (validateCOD 50000).valid = true ∧
    (validateCOD 50001).valid = false ∧
    (∀ t : Int, (validateCOD t).valid = true ↔ (7000 ≤ t ∧ t ≤ 50000)) ∧
    (∀ t : Int, (validateCOD t).valid = true ∨
      0 < (((validateCOD t).reason).getD "").length) := by
  refine ⟨rfl, rfl, rfl, rfl, ?_, ?_⟩
  · intro t
    unfold validateCOD COD_MIN COD_MAX
    split_ifs with h1 h2 <;> simp <;> omega
  · intro t
    unfold validateCOD COD_MIN COD_MAX
    split_ifs with h1 h2
    · right
      simp only [Option.getD_some]
      apply append_len_pos
      apply append_len_pos
      apply append_len_pos
      apply append_len_pos
      decide
    · right
      simp only [Option.getD_some]
      apply append_len_pos
      apply append_len_pos
      decide
    · left; rfl

/-! ## C9: `processCOD` against `validateCOD` -/

/-- C9: `processCOD(total)` throws exactly when `validateCOD(total)` is
invalid, and with the same reason string; on success it returns the payment
object with method `cash_on_delivery`, status `pending` and the given
amount. -/
theorem processCOD_spec :
    ∀ (t : Int) (now : Nat),
      ((validateCOD t).valid = true →
        processCOD t now = .ok { method := "cash_on_delivery", status := "pending",
                                 reference := "COD-" ++ toString now, amount := t }) ∧
      (∀ msg : String,
        processCOD t now = .error msg ↔
          ((validateCOD t).valid = false ∧ (validateCOD t).reason = some msg)) := by
  intro t now
  constructor
  · intro h
    simp [processCOD, h]
  · intro msg
    unfold processCOD validateCOD COD_MIN COD_MAX
    split_ifs with h1 h2 <;> simp [eq_comm]

/-! ## C10: `getCheapestRate` -/

/-- Membership through `insertByFee`. -/
theorem mem_insertByFee {x r : Rate} {l : List Rate} :
    x ∈ insertByFee r l ↔ x = r ∨ x ∈ l := by
  induction l with
  | nil => simp [insertByFee]
  | cons a as ih =>
    by_cases h : r.delivery_fee < a.delivery_fee
    · simp [insertByFee, h]
    · simp [insertByFee, h, ih]
      tauto

/-- `insertByFee` never produces the empty list. -/
theorem insertByFee_ne_nil (r : Rate) (l : List Rate) : insertByFee r l ≠ [] := by
  cases l with
  | nil => simp [insertByFee]
  | cons a as =>
    unfold insertByFee
    split_ifs <;> simp

/-- `insertByFee` preserves pairwise fee-sortedness. -/
theorem pairwise_insertByFee {r : Rate} {l : List Rate}
    (h : l.Pairwise (fun a b => a.delivery_fee ≤ b.delivery_fee)) :
    (insertByFee r l).Pairwise (fun a b => a.delivery_fee ≤ b.delivery_fee) := by
  induction l with
  | nil => simp [insertByFee]
  | cons a as ih =>
    rcases List.pairwise_cons.mp h with ⟨ha, has⟩
    by_cases hr : r.delivery_fee < a.delivery_fee
    · simp only [insertByFee, if_pos hr]
      refine List.pairwise_cons.mpr ⟨?_, h⟩
      intro b hb
      rcases List.mem_cons.mp hb with rfl | hb
      · omega
      · have := ha b hb
        omega
    · simp only [insertByFee, if_neg hr]
      refine List.pairwise_cons.mpr ⟨?_, ih has⟩
      intro b hb
      rcases mem_insertByFee.mp hb with rfl | hb
      · omega
      · exact ha b hb

/-- `sortByFee` is sorted by ascending fee. -/
theorem pairwise_sortByFee (l : List Rate) :
    (sortByFee l).Pairwise (fun a b => a.delivery_fee ≤ b.delivery_fee) := by
  induction l with
  | nil => simp [sortByFee]
  | cons a as ih => exact pairwise_insertByFee ih

/-- `sortByFee` does not change membership. -/
theorem mem_sortByFee {x : Rate} {l : List Rate} : x ∈ sortByFee l ↔ x ∈ l := by
  induction l with
  | nil => simp [sortByFee]
  | cons a as ih => simp [sortByFee, mem_insertByFee, ih]

/-- C10: `getCheapestRate` returns null exactly on an empty underlying rate
list, and otherwise a member of the list whose `delivery_fee` is minimal. -/
theorem getCheapestRate_spec :
    ∀ rates : List Rate,
      (getCheapestRate rates = none ↔ rates = []) ∧
      (∀ r, getCheapestRate rates = some r →
        r ∈ rates ∧ ∀ x ∈ rates, r.delivery_fee ≤ x.delivery_fee) := by
  intro rates
  constructor
  · unfold getCheapestRate
    split_ifs with h
    · simp_all [List.isEmpty_iff]
    · simp only [List.isEmpty_iff] at h
      constructor
      · intro hh
        rcases hs : sortByFee rates with _ | ⟨b, bs⟩
        · cases rates with
          | nil => rfl
          | cons a as =>
            exact absurd hs (by simp [sortByFee, insertByFee_ne_nil])
        · rw [hs] at hh
          simp at hh
      · intro hh
        exact absurd hh h
  · intro r hr
    unfold getCheapestRate at hr
    split_ifs at hr with h
    rcases hs : sortByFee rates with _ | ⟨b, bs⟩
    · rw [hs] at hr
      simp at hr
    · rw [hs] at hr
      simp only [List.head?_cons, Option.some_inj] at hr
      obtain rfl := hr
      have hmem : b ∈ sortByFee rates := by
        rw [hs]; exact List.mem_cons_self _ _
      refine ⟨mem_sortByFee.mp hmem, ?_⟩
      intro x hx
      have hx' : x ∈ sortByFee rates := mem_sortByFee.mpr hx
      rw [hs] at hx'
      rcases List.mem_cons.mp hx' with rfl | hx'
      · omega
      · have hp := pairwise_sortByFee rates
        rw [hs] at hp
        exact (List.pairwise_cons.mp hp).1 x hx'

/-- Witness for C10 at a concrete two-element list: the cheapest of fees
5 and 3 is the fee-3 rate, a member that is minimal. -/
theorem getCheapestRate_witness :
    exRateB ∈ [exRateA, exRateB] ∧
    ∀ x ∈ [exRateA, exRateB], exRateB.delivery_fee ≤ x.delivery_fee :=
  (getCheapestRate_spec [exRateA, exRateB]).2 exRateB rfl

/-! ## C4: shipping fallback guarantee -/

/-- The static fallback table is nonempty for every state string. -/
theorem flatRates_ne_nil (s : String) : flatRates s ≠ [] := by
  simp only [flatRates]
  split_ifs <;> simp

/-- C4: for every recipient state, if the remote rate call throws, responds
non-ok, or responds ok with zero rate entries, the handler returns a
nonempty rate list tagged `source = "fallback"`; and the handler never
returns an empty rate list. -/
theorem getRates_fallback_guarantee :
    ∀ (state : String) (outcome : ShipOutcome),
      ((match outcome with
        | .throws _ => True
        | .respond ok d rf => ok = false ∨ bodyEntries d rf = []) →
        ((getRatesHandler state outcome).rates ≠ [] ∧
         (getRatesHandler state outcome).source = "fallback")) ∧
      (getRatesHandler state outcome).rates ≠ [] := by
  intro state outcome
  cases outcome with
  | throws m =>
    exact ⟨fun _ => ⟨flatRates_ne_nil state, rfl⟩, flatRates_ne_nil state⟩
  | respond ok d rf =>
    constructor
    · intro h
      have hred : getRatesHandler state (.respond ok d rf) =
          { rates := flatRates state, source := "fallback" } := by
        rcases h with h | h
        · subst h; rfl
        · cases ok
          · rfl
          · simp [getRatesHandler, h]
      rw [hred]
      exact ⟨flatRates_ne_nil state, rfl⟩
    · cases ok
      · exact flatRates_ne_nil state
      · by_cases hb : bodyEntries d rf = []
        · have hred : getRatesHandler state (.respond true d rf) =
              { rates := flatRates state, source := "fallback" } := by
            simp [getRatesHandler, hb]
          rw [hred]
          exact flatRates_ne_nil state
        · have hred : getRatesHandler state (.respond true d rf) =
              { rates := (bodyEntries d rf).map convRate, source := "shipbubble" } := by
            simp [getRatesHandler, hb]
          rw [hred]
          simpa using hb

/-- Witness for C4: a thrown remote call on a Lagos address yields the
nonempty fallback table. -/
theorem getRates_fallback_witness :
    (getRatesHandler "Lagos" (.throws "network down")).rates ≠ [] ∧
    (getRatesHandler "Lagos" (.throws "network down")).source = "fallback" :=
  (getRates_fallback_guarantee "Lagos" (.throws "network down")).1 trivial

/-! ## C7: order-number format -/

/-- C7: every order number generated by a successful `placeOrder` run is
`MC-<year>-<n>` for the current year and a six-digit `n ∈ [100000, 999999]`,
for every random draw `r ∈ [0, 1)`. -/
theorem orderNumber_format :
    ∀ (f : Faults) (od : OrderData) (year : Nat) (r : ℚ) (w : World)
      (row : OrderRow) (w' : World),
      0 ≤ r → r < 1 →
      placeOrderActions f od year r w = .ok (row, w') →
      row.order_number = "MC-" ++ toString year ++ "-" ++ toString (orderRandNum r) ∧
      100000 ≤ orderRandNum r ∧ orderRandNum r ≤ 999999 := by
  intro f od year r w row w' h0 h1 h
  have hrow : row = mkOrderRow od year r := by
    unfold placeOrderActions at h
    split_ifs at h
    cases h
    rfl
  have h2 : (0 : ℚ) ≤ r * 900000 := by positivity
  have h3 : r * 900000 < 900000 := by nlinarith
  have h4 : 0 ≤ ⌊r * 900000⌋ := Int.floor_nonneg.mpr h2
  have h5 : ⌊r * 900000⌋ < 900000 := by
    apply Int.floor_lt.mpr
    push_cast
    exact h3
  subst hrow
  refine ⟨rfl, ?_, ?_⟩ <;> unfold orderRandNum <;> omega

/-- Witness for C9: total 10000 is valid and `processCOD` returns the COD
payment object. -/
theorem processCOD_witness :
    (validateCOD 10000).valid = true ∧
    processCOD 10000 5 = .ok { method := "cash_on_delivery", status := "pending",
                               reference := "COD-" ++ toString 5, amount := 10000 } :=
  ⟨rfl, (processCOD_spec 10000 5).1 rfl⟩

/-- Witness for C7: the fault-free run on the sample payload with draw
`r = 0` generates `MC-2025-100000`, whose suffix is in range. -/
theorem orderNumber_format_witness :
    (0 : ℚ) ≤ 0 ∧ (0 : ℚ) < 1 ∧
    ((mkOrderRow (exOrderData []) 2025 0).order_number =
      "MC-" ++ toString 2025 ++ "-" ++ toString (orderRandNum 0) ∧
     100000 ≤ orderRandNum 0 ∧ orderRandNum 0 ≤ 999999) := by
  refine ⟨le_refl 0, by norm_num, ?_⟩
  exact orderNumber_format noFaults (exOrderData []) 2025 0 exWorld
    (mkOrderRow (exOrderData []) 2025 0)
    { orders := [mkOrderRow (exOrderData []) 2025 0], cart := [],
      products := [{ id := 1, stock := some 5 }] }
    (le_refl 0) (by norm_num) rfl

/-! ## C5 and C8: the product normaliser -/

/-- A truthy `jsStr` result is a nonempty string. -/
theorem jsStr_nonempty {a : Option String} {s : String} (h : jsStr a = some s) :
    s.isEmpty = false := by
  cases a with
  | none => exact absurd h (by simp [jsStr])
  | some t =>
    by_cases ht : t.isEmpty
    · rw [show jsStr (some t) = none by simp [jsStr, ht]] at h
      cases h
    · rw [show jsStr (some t) = some t by simp [jsStr, ht]] at h
      obtain rfl := Option.some_inj.mp h
      simpa using ht

/-- `jsStr` keeps a nonempty string. -/
theorem jsStr_of_ne {s : String} (h : s.isEmpty = false) : jsStr (some s) = some s := by
  simp [jsStr, h]

/-- A truthy left operand wins in `a || b`. -/
theorem jsOrStr_some_left {s : String} (h : s.isEmpty = false) (b : Option String) :
    jsOrStr (some s) b = some s := by
  simp [jsOrStr, jsStr_of_ne h]

/-- If `a || b` produced a value, it is the truthy `a` or it is `b`. -/
theorem jsOrStr_eq_some {a b : Option String} {s : String}
    (h : jsOrStr a b = some s) : jsStr a = some s ∨ b = some s := by
  unfold jsOrStr at h
  cases hj : jsStr a with
  | some t => rw [hj] at h; exact .inl h
  | none => rw [hj] at h; exact .inr h

/-- If `a || b` is null then `b` is null. -/
theorem jsOrStr_eq_none {a b : Option String} (h : jsOrStr a b = none) :
    b = none := by
  unfold jsOrStr at h
  cases hj : jsStr a with
  | some t => rw [hj] at h; cases h
  | none => rw [hj] at h; exact h

/-- The resolved product name is never the empty string. -/
theorem norName_nonempty (p : ProductRec) : (norName p).isEmpty = false := by
  unfold norName
  cases h : jsOrStr p.name (jsOrStr p.title (some "Unnamed Product")) with
  | none => decide
  | some s =>
    simp only [Option.getD_some]
    rcases jsOrStr_eq_some h with h1 | h1
    · exact jsStr_nonempty h1
    · rcases jsOrStr_eq_some h1 with h2 | h2
      · exact jsStr_nonempty h2
      · obtain rfl := Option.some_inj.mp h2
        decide

/-- A resolved image url, when present, is a nonempty string. -/
theorem norImage_nonempty {p : ProductRec} {s : String}
    (h : norImage p = some s) : s.isEmpty = false := by
  unfold norImage at h
  rcases jsOrStr_eq_some h with h1 | h1
  · exact jsStr_nonempty h1
  · rcases jsOrStr_eq_some h1 with h2 | h2
    · exact jsStr_nonempty h2
    · rcases jsOrStr_eq_some h2 with h3 | h3
      · exact jsStr_nonempty h3
      · cases h3

/-- Normalising twice resolves the same name. -/
theorem norName_normed (p : ProductRec) : norName (normaliseRec p) = norName p := by
  show (jsOrStr (some (norName p))
      (jsOrStr p.title (some "Unnamed Product"))).getD "Unnamed Product" = norName p
  rw [jsOrStr_some_left (norName_nonempty p)]
  rfl

/-- Normalising twice resolves the same image url. -/
theorem norImage_normed (p : ProductRec) : norImage (normaliseRec p) = norImage p := by
  show jsOrStr (norImage p) (jsOrStr (imagesHead p) (jsOrStr p.image none)) = norImage p
  cases h : norImage p with
  | none =>
    have ht : jsOrStr (imagesHead p) (jsOrStr p.image none) = none := by
      unfold norImage at h
      exact jsOrStr_eq_none h
    rw [ht]
    rfl
  | some s =>
    rw [jsOrStr_some_left (norImage_nonempty h)]

/-- One-record idempotence of the normaliser. -/
theorem normaliseRec_idem (q : ProductRec) :
    normaliseRec (normaliseRec q) = normaliseRec q := by
  conv_lhs => rw [normaliseRec]
  rw [norName_normed, norImage_normed]
  rfl

/-- C8: the product normaliser is idempotent: `normalise(normalise(p))`
equals `normalise(p)` for every (possibly null) product record. -/
theorem normalise_idempotent :
    ∀ p : Option ProductRec, normalise (normalise p) = normalise p := by
  intro p
  cases p with
  | none => rfl
  | some q => exact congrArg some (normaliseRec_idem q)

/-- The `display_price` field written by the normaliser. -/
theorem normaliseRec_display (p : ProductRec) :
    (normaliseRec p).display_price =
      some (if 0 < (p.promo_price).getD 0 ∧ (p.promo_price).getD 0 < (p.price).getD 0
        then (p.promo_price).getD 0 else (p.price).getD 0) := rfl

/-- The `original_price` field written by the normaliser. -/
theorem normaliseRec_original (p : ProductRec) :
    (normaliseRec p).original_price =
      (if 0 < (p.promo_price).getD 0 ∧ (p.promo_price).getD 0 < (p.price).getD 0
        then some ((p.price).getD 0) else none) := rfl

/-- Counterexample to C5 as stated: when `promo_price = price = 5`, the
normaliser outputs `display_price` numerically equal to `promo_price`
although `0 < promo_price < price` fails (and `original_price` is null),
refuting the only-if direction of the claimed equivalence. -/
theorem normalise_promo_iff_cex :
    (normaliseRec promoEqRec).display_price = some 5 ∧
    promoEqRec.promo_price = some 5 ∧
    promoEqRec.price = some 5 ∧
    ¬ (0 < (5 : ℤ) ∧ (5 : ℤ) < 5) ∧
    (normaliseRec promoEqRec).original_price = none := by
  refine ⟨rfl, rfl, rfl, by omega, rfl⟩

/-- C5 (amended): `display_price = promo_price` whenever
`0 < promo_price < price`, in which case `original_price = price`; otherwise
`display_price = price` and `original_price = null` (in which case
`display_price` may still coincide numerically with `promo_price`, e.g. when
`promo_price = price`). -/
theorem normalise_promo_correct :
    ∀ p : ProductRec,
      ((0 < (p.promo_price).getD 0 ∧ (p.promo_price).getD 0 < (p.price).getD 0) →
        (normaliseRec p).display_price = some ((p.promo_price).getD 0) ∧
        (normaliseRec p).original_price = some ((p.price).getD 0)) ∧
      (¬ (0 < (p.promo_price).getD 0 ∧ (p.promo_price).getD 0 < (p.price).getD 0) →
        (normaliseRec p).display_price = some ((p.price).getD 0) ∧
        (normaliseRec p).original_price = none) := by
  intro p
  constructor <;> intro h
  · refine ⟨?_, ?_⟩
    · rw [normaliseRec_display, if_pos h]
    · rw [normaliseRec_original, if_pos h]
  · refine ⟨?_, ?_⟩
    · rw [normaliseRec_display, if_neg h]
    · rw [normaliseRec_original, if_neg h]

/-- Witness for C5 (amended) on the active-promo record (price 10,
promo 4). -/
theorem normalise_promo_witness :
    (0 < (promoActiveRec.promo_price).getD 0 ∧
      (promoActiveRec.promo_price).getD 0 < (promoActiveRec.price).getD 0) ∧
    ((normaliseRec promoActiveRec).display_price =
        some ((promoActiveRec.promo_price).getD 0) ∧
     (normaliseRec promoActiveRec).original_price =
        some ((promoActiveRec.price).getD 0)) :=
  ⟨by decide, (normalise_promo_correct promoActiveRec).1 (by decide)⟩

/-! ## C2: cart upsert convergence -/

/-- Updating the quantity of a row preserves the `(uid, product_id)`
filter key. -/
theorem cartMatches_update (uid : String) (pid : Nat) (q : Int) (r : CartRow) :
    cartMatches uid pid { r with quantity := q } = cartMatches uid pid r := rfl

/-- The PATCH of all matching rows commutes with the filter. -/
theorem filter_update_cart (uid : String) (pid : Nat) (q : Int) (l : List CartRow) :
    (l.map (fun r => if cartMatches uid pid r then { r with quantity := q } else r)).filter
      (cartMatches uid pid) =
    (l.filter (cartMatches uid pid)).map (fun r => { r with quantity := q }) := by
  induction l with
  | nil => rfl
  | cons x xs ih =>
    by_cases hx : cartMatches uid pid x
    · simp [List.filter_cons, hx, ih, cartMatches_update]
    · simp [List.filter_cons, hx, ih, cartMatches_update]

/-- `addToCart` on a cart that already has matching rows PATCHes them all to
`existing[0].quantity + quantity`. -/
theorem addToCart_existing (uid : String) (product : ProductRec) (q : Int)
    (cart : List CartRow) (e0 : CartRow) (rest : List CartRow)
    (h : cart.filter (cartMatches uid product.id) = e0 :: rest) :
    (addToCart uid product q cart).1 =
      cart.map (fun r => if cartMatches uid product.id r then
        { r with quantity := e0.quantity + q } else r) := by
  unfold addToCart
  rw [h]

/-- `addToCart` on a cart with no matching row POSTs the new row. -/
theorem addToCart_fresh (uid : String) (product : ProductRec) (q : Int)
    (cart : List CartRow)
    (h : cart.filter (cartMatches uid product.id) = []) :
    (addToCart uid product q cart).1 = cart ++ [mkCartRow uid product q] := by
  unfold addToCart
  rw [h]

/-- The freshly inserted row matches its own `(uid, product_id)` key. -/
theorem cartMatches_mkCartRow (uid : String) (product : ProductRec) (q : Int) :
    cartMatches uid product.id (mkCartRow uid product q) = true := by
  simp [cartMatches, mkCartRow]

/-- C2: starting from a cart with no row for `(uid, product.id)`, two
sequential `addToCart(uid, product, q1)` then `addToCart(uid, product, q2)`
calls leave exactly one row for that pair, and its quantity is `q1 + q2`. -/
theorem addToCart_accumulates :
    ∀ (uid : String) (product : ProductRec) (q1 q2 : Int) (cart : List CartRow),
      cart.filter (cartMatches uid product.id) = [] →
      ∃ row : CartRow,
        ((addToCart uid product q2 ((addToCart uid product q1 cart).1)).1).filter
            (cartMatches uid product.id) = [row] ∧
        row.quantity = q1 + q2 := by
  intro uid product q1 q2 cart h
  have h1 : (addToCart uid product q1 cart).1 = cart ++ [mkCartRow uid product q1] :=
    addToCart_fresh uid product q1 cart h
  have h2 : ((addToCart uid product q1 cart).1).filter (cartMatches uid product.id)
      = [mkCartRow uid product q1] := by
    rw [h1, List.filter_append, h]
    simp [cartMatches_mkCartRow]
  refine ⟨{ mkCartRow uid product q1 with quantity := q1 + q2 }, ?_, rfl⟩
  rw [addToCart_existing uid product q2 _ (mkCartRow uid product q1) [] h2,
    filter_update_cart, h2]
  rfl

/-- Witness for C2: adding 2 then 3 units of the sample product to an empty
cart leaves one row with quantity 5. -/
theorem addToCart_accumulates_witness :
    ∃ row : CartRow,
      ((addToCart "u1" exProduct 3 ((addToCart "u1" exProduct 2 []).1)).1).filter
          (cartMatches "u1" exProduct.id) = [row] ∧
      row.quantity = 2 + 3 :=
  addToCart_accumulates "u1" exProduct 2 3 [] rfl

/-! ## C1: order-placement failure semantics -/

/-- Counterexample to C1 as stated: with a succeeding order insert and a
failing cart-clearing DELETE, the server action `placeOrder` fails instead of
swallowing the cart-clearing failure and returning the created order. -/
theorem placeOrder_clearFail_cex :
    clearOnlyFault.insertFails = false ∧
    isOkE (placeOrderActions clearOnlyFault (exOrderData [exItem]) 2025 0 exWorld)
      = false :=
  ⟨rfl, rfl⟩

/-- C1 (amended): `placeOrder` fails whenever the order insert fails; in the
server action (`api/supabase`) a cart-clearing failure also propagates and
makes `placeOrder` fail, while the `db.js` client variant swallows it;
failures in the per-item stock decrements never make either variant fail;
and every successful run returns the created order record. -/
theorem placeOrder_failure_semantics :
    ∀ (f : Faults) (od : OrderData) (year : Nat) (r : ℚ) (w : World),
      (isOkE (placeOrderActions f od year r w) = false ↔
        (f.insertFails = true ∨ f.clearFails = true)) ∧
      (isOkE (db_placeOrder f od year r w) = false ↔ f.insertFails = true) ∧
      (f.insertFails = false → f.clearFails = false →
        ∃ w', placeOrderActions f od year r w = .ok (mkOrderRow od year r, w')) ∧
      (f.insertFails = false →
        ∃ w', db_placeOrder f od year r w = .ok (mkOrderRowFast od year r, w')) := by
  intro f od year r w
  refine ⟨?_, ?_, ?_, ?_⟩
  · unfold placeOrderActions
    split_ifs with h1 h2 <;> simp [isOkE, *]
  · unfold db_placeOrder
    split_ifs with h1 <;> simp [isOkE, *]
  · intro hi hc
    refine ⟨{ orders := w.orders ++ [mkOrderRow od year r],
              cart := w.cart.filter (fun c => c.uid != od.uid),
              products := stockLoop f od.items 0 w.products }, ?_⟩
    simp [placeOrderActions, hi, hc]
  · intro hi
    cases hcl : f.clearFails with
    | false =>
      refine ⟨{ orders := w.orders ++ [mkOrderRowFast od year r],
                cart := w.cart.filter (fun c => c.uid != od.uid),
                products := stockLoop f od.items 0 w.products }, ?_⟩
      simp [db_placeOrder, hi, hcl]
    | true =>
      refine ⟨{ orders := w.orders ++ [mkOrderRowFast od year r],
                cart := w.cart,
                products := stockLoop f od.items 0 w.products }, ?_⟩
      simp [db_placeOrder, hi, hcl]

/-- Witness for C1 (amended): the fault-free run on the sample payload
succeeds and returns the created order record. -/
theorem placeOrder_failure_witness :
    noFaults.insertFails = false ∧ noFaults.clearFails = false ∧
    (∃ w', placeOrderActions noFaults (exOrderData [exItem]) 2025 0 exWorld =
      .ok (mkOrderRow (exOrderData [exItem]) 2025 0, w')) :=
  ⟨rfl, rfl,
    (placeOrder_failure_semantics noFaults (exOrderData [exItem]) 2025 0
      exWorld).2.2.1 rfl rfl⟩

/-! ## C3: stock floor after order placement -/

/-- The fault-free environment never fails a stock SELECT. -/
theorem noFaults_read (i : Nat) : noFaults.stockReadFails.getD i false = false := rfl

/-- The fault-free environment never fails a stock PATCH. -/
theorem noFaults_write (i : Nat) : noFaults.stockWriteFails.getD i false = false := rfl

/-- A PATCH scoped to a different product id leaves the rows of `pid`
unchanged. -/
theorem filter_stockupd_ne (pid pid' : Nat) (q : Int) (h : pid' ≠ pid)
    (l : List ProductRow) :
    (l.map (fun p => if p.id = pid' then { p with stock := some q } else p)).filter
      (fun p => decide (p.id = pid)) =
    l.filter (fun p => decide (p.id = pid)) := by
  induction l with
  | nil => rfl
  | cons x xs ih =>
    by_cases hx : x.id = pid'
    · have hxp : ¬ x.id = pid := by omega
      simp [List.filter_cons, hx, hxp, h, ih]
    · simp [List.filter_cons, hx, ih]

/-- A PATCH scoped to `pid` rewrites exactly the rows of `pid`. -/
theorem filter_stockupd_self (pid : Nat) (q : Int) (l : List ProductRow) :
    (l.map (fun p => if p.id = pid then { p with stock := some q } else p)).filter
      (fun p => decide (p.id = pid)) =
    (l.filter (fun p => decide (p.id = pid))).map (fun p => { p with stock := some q }) := by
  induction l with
  | nil => rfl
  | cons x xs ih =>
    by_cases hx : x.id = pid
    · simp [List.filter_cons, hx, ih]
    · simp [List.filter_cons, hx, ih]

/-- One stock-loop iteration for a different product id leaves the rows of
`pid` unchanged, whatever the faults. -/
theorem stockStep_filter_ne (rf wf : Bool) (item : OrderItem) (pid : Nat)
    (h : itemPid item ≠ pid) (l : List ProductRow) :
    (stockStep rf wf item l).filter (fun p => decide (p.id = pid)) =
      l.filter (fun p => decide (p.id = pid)) := by
  simp only [stockStep]
  split_ifs with h1 h2
  · rfl
  · rcases hm : l.filter (fun p => decide (p.id = itemPid item)) with _ | ⟨p0, rest⟩ <;>
      rw [hm]
  · rcases hm : l.filter (fun p => decide (p.id = itemPid item)) with _ | ⟨p0, rest⟩
    · rw [hm]
    · rw [hm]
      exact filter_stockupd_ne pid (itemPid item) _ h l

/-- A fault-free stock-loop iteration on an item whose product has rows
`p0 :: rest` rewrites exactly those rows to
`max 0 ((p0.stock || 0) - (item.quantity || 1))`. -/
theorem stockStep_filter_eq (item : OrderItem) (l : List ProductRow)
    (p0 : ProductRow) (rest : List ProductRow)
    (h : l.filter (fun p => decide (p.id = itemPid item)) = p0 :: rest) :
    (stockStep false false item l).filter (fun p => decide (p.id = itemPid item)) =
      (p0 :: rest).map (fun p =>
        { p with stock := some (max 0 ((p0.stock).getD 0 - itemQty item)) }) := by
  simp only [stockStep]
  rw [h]
  simp only [Bool.false_eq_true, if_false]
  rw [filter_stockupd_self, h]

/-- A stock loop over items that never mention `pid` leaves the rows of
`pid` unchanged. -/
theorem stockLoop_filter_untouched (f : Faults) (items : List OrderItem)
    (i : Nat) (pid : Nat) (l : List ProductRow)
    (h : ∀ it ∈ items, itemPid it ≠ pid) :
    (stockLoop f items i l).filter (fun p => decide (p.id = pid)) =
      l.filter (fun p => decide (p.id = pid)) := by
  induction items generalizing i l with
  | nil => rfl
  | cons it rest ih =>
    simp only [stockLoop]
    rw [ih (i + 1)
      (stockStep (f.stockReadFails.getD i false) (f.stockWriteFails.getD i false) it l)
      (fun x hx => h x (List.mem_cons_of_mem _ hx))]
    exact stockStep_filter_ne _ _ it pid (h it (List.mem_cons_self _ _)) l

/-- The stock loop splits over an append, shifting the item index. -/
theorem stockLoop_append (f : Faults) (l1 l2 : List OrderItem) (i : Nat)
    (prods : List ProductRow) :
    stockLoop f (l1 ++ l2) i prods =
      stockLoop f l2 (i + l1.length) (stockLoop f l1 i prods) := by
  induction l1 generalizing i prods with
  | nil => simp [stockLoop]
  | cons a as ih =>
    simp only [List.cons_append, stockLoop, List.length_cons]
    rw [show i + (as.length + 1) = i + 1 + as.length by omega]
    exact ih (i + 1) _

/-- After a fault-free stock loop over items with pairwise-distinct product
ids, the rows of the product of the member item `it` are exactly the original
rows rewritten to `max 0 ((p0.stock || 0) - (it.quantity || 1))`. -/
theorem stockLoop_filter_hit (items : List OrderItem) (it : OrderItem)
    (hmem : it ∈ items) (hnd : (items.map itemPid).Nodup)
    (l : List ProductRow) (p0 : ProductRow) (rest : List ProductRow)
    (h : l.filter (fun p => decide (p.id = itemPid it)) = p0 :: rest) :
    (stockLoop noFaults items 0 l).filter (fun p => decide (p.id = itemPid it)) =
      (p0 :: rest).map (fun p =>
        { p with stock := some (max 0 ((p0.stock).getD 0 - itemQty it)) }) := by
  obtain ⟨l1, l2, rfl⟩ := List.append_of_mem hmem
  rw [List.map_append, List.map_cons] at hnd
  obtain ⟨nd1, nd2, disj⟩ := List.nodup_append.mp hnd
  have hpid2 : ∀ x ∈ l2, itemPid x ≠ itemPid it := by
    intro x hx hcontra
    have hxm : itemPid it ∈ l2.map itemPid := by
      rw [← hcontra]
      exact List.mem_map_of_mem _ hx
    exact (List.nodup_cons.mp nd2).1 hxm
  have hpid1 : ∀ x ∈ l1, itemPid x ≠ itemPid it := by
    intro x hx hcontra
    have hxm : itemPid x ∈ l1.map itemPid := List.mem_map_of_mem _ hx
    have := disj hxm
    rw [hcontra] at this
    exact this (List.mem_cons_self _ _)
  rw [stockLoop_append]
  simp only [stockLoop, noFaults_read, noFaults_write]
  rw [stockLoop_filter_untouched _ _ _ _ _ hpid2]
  have hl1 : (stockLoop noFaults l1 0 l).filter (fun p => decide (p.id = itemPid it))
      = p0 :: rest := by
    rw [stockLoop_filter_untouched _ _ _ _ _ hpid1]
    exact h
  exact stockStep_filter_eq it _ p0 rest hl1

/-- C3 (amended): after a fault-free `placeOrder` over items with
pairwise-distinct product ids and nonzero quantities, for every ordered item
whose product exists, every row of that product carries the new stock
`max(0, oldStock - orderedQty)`; in particular the written stock is never
negative. -/
theorem stock_floor :
    ∀ (od : OrderData) (year : Nat) (r : ℚ) (w : World) (row : OrderRow)
      (w' : World),
      placeOrderActions noFaults od year r w = .ok (row, w') →
      (od.items.map itemPid).Nodup →
      (∀ it ∈ od.items, it.quantity ≠ 0) →
      ∀ it ∈ od.items, ∀ (p0 : ProductRow) (rest : List ProductRow),
        w.products.filter (fun p => decide (p.id = itemPid it)) = p0 :: rest →
        w'.products.filter (fun p => decide (p.id = itemPid it)) =
          (p0 :: rest).map (fun p =>
            { p with stock := some (max 0 ((p0.stock).getD 0 - it.quantity)) }) ∧
        0 ≤ max (0 : Int) ((p0.stock).getD 0 - it.quantity) := by
  intro od year r w row w' h hnd hq it hmem p0 rest hp
  have hw' : w'.products = stockLoop noFaults od.items 0 w.products := by
    unfold placeOrderActions at h
    split_ifs at h
    cases h
    rfl
  have hqt : itemQty it = it.quantity := by
    unfold itemQty
    rw [if_neg (hq it hmem)]
  refine ⟨?_, le_max_left 0 _⟩
  rw [hw']
  have hh := stockLoop_filter_hit od.items it hmem hnd w.products p0 rest hp
  rw [hqt] at hh
  exact hh

/-- Counterexample to C3 as stated: an ordered quantity of 0 is falsy in JS,
so the code decrements by 1 (`quantity || 1`): starting stock 5 becomes 4,
while the claimed `max(0, oldStock - orderedQty)` is 5. -/
theorem stock_floor_cex :
    placeOrderActions noFaults (exOrderData [zeroQtyItem]) 2025 0 exWorld =
      .ok (mkOrderRow (exOrderData [zeroQtyItem]) 2025 0,
        { orders := [mkOrderRow (exOrderData [zeroQtyItem]) 2025 0], cart := [],
          products := [{ id := 1, stock := some 4 }] }) ∧
    max 0 ((5 : Int) - zeroQtyItem.quantity) = 5 :=
  ⟨rfl, by decide⟩

/-- Witness for C3 (amended): ordering 3 units of product 1 (stock 5) in the
fault-free run leaves its row at stock `max 0 (5 - 3) = 2`. -/
theorem stock_floor_witness :
    exWfinal.products.filter (fun p => decide (p.id = itemPid exItem)) =
      [({ id := 1, stock := some 5 } : ProductRow)].map (fun p =>
        { p with stock := some (max 0 ((p.stock).getD 0 - exItem.quantity)) }) ∧
    0 ≤ max (0 : Int) (((some (5 : Int)).getD 0) - exItem.quantity) := by
  have hh := stock_floor (exOrderData [exItem]) 2025 0 exWorld
    (mkOrderRow (exOrderData [exItem]) 2025 0) exWfinal rfl (by decide)
    (by decide) exItem (by simp [exOrderData]) { id := 1, stock := some 5 } [] rfl
  exact ⟨by simpa using hh.1, hh.2⟩

end MCStore
